import Mathlib

/-
  Verification of the bank-deposits SMS ingestion core.

  Shallow embedding of:
  - `parseBancolombiaSMS` and `validateWebhookPayload` (src/lib, chart-types/sms-parser),
  - the `MemoryCache` TTL cache (lib/cache),
  - `TransactionDatabase.getTransactionMetrics` (lib/database.ts),
  - the webhook `POST` handler (app/api/webhook/sms/route.ts).

  Machine integers are modelled as Nat; fallible steps as Option; the handler's
  interactions with the database are modelled by an explicit oracle for each
  database call, and the handler returns, besides its HTTP response, the trace
  of pipeline steps it executed.
-/

namespace BankDeposits

set_option maxRecDepth 40000

/-! ## Character classes (JavaScript regex semantics) -/

/-- The JavaScript `\s` character class: space, tab, line terminators and the
Unicode space separators recognised by the JS regex engine. -/
def isJsSpace (c : Char) : Bool :=
  c == ' ' || c == '\t' || c == '\n' || c == '\r' ||
  c == '\x0b' || c == '\x0c' ||
  c == '\u00A0' || c == '\u1680' ||
  (Nat.ble 0x2000 c.toNat && Nat.ble c.toNat 0x200A) ||
  c == '\u2028' || c == '\u2029' || c == '\u202F' || c == '\u205F' ||
  c == '\u3000' || c == '\uFEFF'

/-- The `[0-9,]` class of the amount capture group. -/
def isAmountChar (c : Char) : Bool :=
  c.isDigit || c == ','

/-- The `[A-Z\s]` class of the sender-name capture group. -/
def isNameChar (c : Char) : Bool :=
  c.isUpper || isJsSpace c

/-! ## Regex matching for BANCOLOMBIA_PATTERN

The source pattern is
`Bancolombia:\s*Recibiste una transferencia por \$([0-9,]+) de ([A-Z\s]+) en tu cuenta \*\*(\d{4}), el (\d{2}\/\d{2}\/\d{4}) a las (\d{2}:\d{2})`,
matched unanchored (`String.match` scans start positions left to right).
The matcher below follows the pattern piece by piece.  The quantifiers
`\s*` and `[0-9,]+` are each followed by a literal whose first character is
outside the repeated class, so their greedy match is the maximal run; the
greedy `[A-Z\s]+` group is followed by a literal starting with a space (inside
the class), so it is implemented with genuine longest-first backtracking. -/

/-- Consume the literal `lit` from the front of `l`; fail otherwise. -/
def dropLit : List Char → List Char → Option (List Char)
  | [], l => some l
  | _ :: _, [] => none
  | p :: ps, c :: cs => if c == p then dropLit ps cs else none

/-- Maximal run of characters satisfying `p` (greedy character-class star). -/
def takeRun (p : Char → Bool) : List Char → List Char × List Char
  | [] => ([], [])
  | c :: cs =>
    if p c then
      let (r, rest) := takeRun p cs
      (c :: r, rest)
    else ([], c :: cs)

/-- `\d{n}`: exactly `n` decimal digits. -/
def takeDigits : Nat → List Char → Option (List Char × List Char)
  | 0, l => some ([], l)
  | _ + 1, [] => none
  | n + 1, c :: cs =>
    if c.isDigit then
      match takeDigits n cs with
      | some (ds, r) => some (c :: ds, r)
      | none => none
    else none

/-- `\d{2}\/\d{2}\/\d{4}`: the date capture group (slashes included). -/
def takeDate (l : List Char) : Option (List Char × List Char) :=
  match takeDigits 2 l with
  | none => none
  | some (d1, r1) =>
    match r1 with
    | '/' :: r2 =>
      match takeDigits 2 r2 with
      | none => none
      | some (d2, r3) =>
        match r3 with
        | '/' :: r4 =>
          match takeDigits 4 r4 with
          | none => none
          | some (d3, r5) => some (d1 ++ '/' :: d2 ++ '/' :: d3, r5)
        | _ => none
    | _ => none

/-- `\d{2}:\d{2}`: the time capture group (colon included). -/
def takeTime (l : List Char) : Option (List Char × List Char) :=
  match takeDigits 2 l with
  | none => none
  | some (h, r1) =>
    match r1 with
    | ':' :: r2 =>
      match takeDigits 2 r2 with
      | none => none
      | some (m, r3) => some (h ++ ':' :: m, r3)
    | _ => none

def litBancolombia : List Char := "Bancolombia:".data
def litRecibiste : List Char := "Recibiste una transferencia por $".data
def litDe : List Char := " de ".data
def litCuenta : List Char := " en tu cuenta **".data
def litEl : List Char := ", el ".data
def litALas : List Char := " a las ".data

/-- The deterministic tail of the pattern after the sender-name group and the
`" en tu cuenta **"` literal: `(\d{4}), el (date) a las (time)`.  Returns the
account, date and time captures.  (The pattern ends here, so any trailing
characters are accepted.) -/
def matchTail (l : List Char) : Option (String × String × String) :=
  match takeDigits 4 l with
  | none => none
  | some (acc, r1) =>
    match dropLit litEl r1 with
    | none => none
    | some r2 =>
      match takeDate r2 with
      | none => none
      | some (dt, r3) =>
        match dropLit litALas r3 with
        | none => none
        | some r4 =>
          match takeTime r4 with
          | none => none
          | some (tm, _) => some (String.mk acc, String.mk dt, String.mk tm)

/-- Greedy backtracking match of `([A-Z\s]+)` followed by the rest of the
pattern: prefer extending the group by one more class character (and matching
the continuation after the longer group); only if every longer group fails,
end the group here and require `" en tu cuenta **"` plus the tail.  This is
exactly the JS engine's longest-first exploration of the group lengths. -/
def matchName : List Char → Option (List Char × (String × String × String))
  | [] => none
  | c :: cs =>
    if isNameChar c then
      match matchName cs with
      | some (nm, adt) => some (c :: nm, adt)
      | none =>
        match dropLit litCuenta cs with
        | none => none
        | some r =>
          match matchTail r with
          | none => none
          | some adt => some ([c], adt)
    else none

/-- The five capture groups of `BANCOLOMBIA_PATTERN`, named after the
destructuring `const [, amountStr, senderName, account, dateStr, timeStr]`
in the source. -/
structure Captures where
  amountStr : String
  senderName : String
  account : String
  dateStr : String
  timeStr : String
deriving DecidableEq

/-- Try to match the whole pattern starting exactly at `l`. -/
def matchAt (l : List Char) : Option Captures :=
  match dropLit litBancolombia l with
  | none => none
  | some r1 =>
    -- `\s*` is greedy and followed by the literal "Recibiste…", whose first
    -- character is not a space, so it consumes exactly the maximal space run.
    match dropLit litRecibiste (r1.dropWhile isJsSpace) with
    | none => none
    | some r3 =>
      -- `([0-9,]+)` is greedy and followed by " de ", whose first character
      -- is outside [0-9,], so it captures exactly the maximal nonempty run.
      let (am, r4) := takeRun isAmountChar r3
      if am.isEmpty then none
      else
        match dropLit litDe r4 with
        | none => none
        | some r5 =>
          match matchName r5 with
          | none => none
          | some (nm, adt) =>
            some ⟨String.mk am, String.mk nm, adt.1, adt.2.1, adt.2.2⟩

/-- `message.match(BANCOLOMBIA_PATTERN)`: scan start positions left to right,
returning the first successful match. -/
def findMatch : List Char → Option Captures
  | [] => none
  | c :: cs =>
    match matchAt (c :: cs) with
    | some caps => some caps
    | none => findMatch cs

/-! ## Field-level helpers used by the parser -/

/-- `amountStr.replace(/,/g, '')`: remove every comma. -/
def stripCommas (s : String) : String :=
  String.mk (s.data.filter (fun c => !(c == ',')))

/-- Decimal value of a digit string. -/
def digitsVal (l : List Char) : Nat :=
  l.foldl (fun n c => n * 10 + (c.toNat - '0'.toNat)) 0

/-- Models `parseInt(s, 10)` for the strings that reach it in this parser:
every call site passes a capture-derived string of decimal digits (possibly
empty, e.g. an amount capture of only commas after comma stripping).
`none` is `NaN`.  (`parseInt`'s handling of signs, whitespace and trailing
garbage is not exercised by these call sites.) -/
def jsParseIntOpt (s : String) : Option Nat :=
  if s.data.isEmpty then none
  else if s.data.all Char.isDigit then some (digitsVal s.data)
  else none

/-- `String.prototype.trim()`: remove leading and trailing `\s` characters
(and JS line terminators, all included in `isJsSpace`). -/
def jsTrim (s : String) : String :=
  String.mk (((s.data.dropWhile isJsSpace).reverse.dropWhile isJsSpace).reverse)

/-- `/^\d{4}$/.test s` -/
def isFourDigits (s : String) : Bool :=
  match s.data with
  | [a, b, c, d] => a.isDigit && b.isDigit && c.isDigit && d.isDigit
  | _ => false

/-- `/^\d{2}:\d{2}$/.test s` -/
def isTimeShape (s : String) : Bool :=
  match s.data with
  | [h1, h2, c, m1, m2] => h1.isDigit && h2.isDigit && (c == ':') && m1.isDigit && m2.isDigit
  | _ => false

/-- `String.prototype.split(sep)` for a single-character separator. -/
def splitOnChar (sep : Char) : List Char → List (List Char)
  | [] => [[]]
  | c :: cs =>
    if c == sep then [] :: splitOnChar sep cs
    else
      match splitOnChar sep cs with
      | [] => [[c]]
      | h :: t => (c :: h) :: t

/-- `dateStr.split('/').map(n => parseInt(n, 10))` destructured as
`[day, month, year]` (extra parts are ignored by the destructuring).  If any
of the three components is missing or `NaN`, the subsequent JS range check
passes vacuously (`NaN` comparisons are false) and the re-derivation check on
the resulting invalid `Date` necessarily fails, so such inputs are collapsed
here to `none` and mapped to the `invalid_date` outcome by the caller. -/
def dateComponents (s : String) : Option (Nat × Nat × Nat) :=
  let parts := (splitOnChar '/' s.data).map (fun p => jsParseIntOpt (String.mk p))
  match parts[0]?, parts[1]?, parts[2]? with
  | some (some d), some (some m), some (some y) => some (d, m, y)
  | _, _, _ => none

/-- `timeStr.split(':').map(n => parseInt(n, 10))` destructured as
`[hours, minutes]`. -/
def timeComponents (s : String) : Option (Nat × Nat) :=
  let parts := (splitOnChar ':' s.data).map (fun p => jsParseIntOpt (String.mk p))
  match parts[0]?, parts[1]? with
  | some (some h), some (some m) => some (h, m)
  | _, _ => none

/-! ## JS Date model -/

/-- A calendar date as observed through `getFullYear` / `getMonth` /
`getDate` (month kept 1-based here; the source compares `getMonth()` against
`month - 1`, which is the same comparison). -/
structure JsDate where
  year : Nat
  month : Nat
  day : Nat
deriving DecidableEq

def isLeapYear (y : Nat) : Bool :=
  (y % 4 == 0 && !(y % 100 == 0)) || (y % 400 == 0)

def daysInMonth (y : Nat) (m : Nat) : Nat :=
  if m = 2 then (if isLeapYear y then 29 else 28)
  else if m = 4 ∨ m = 6 ∨ m = 9 ∨ m = 11 then 30
  else 31

/-- Models `new Date(year, month - 1, day)` for `1 ≤ month ≤ 12` and
`1 ≤ day ≤ 31` (the ranges already enforced by the parser before the call):
a day beyond the month's length rolls over into the following month, exactly
the silent normalization the re-derivation check is there to detect. -/
def mkJsDate (y m d : Nat) : JsDate :=
  if d ≤ daysInMonth y m then ⟨y, m, d⟩
  else if m = 12 then ⟨y + 1, 1, d - daysInMonth y m⟩
  else ⟨y, m + 1, d - daysInMonth y m⟩

/-! ## The parser -/

/-- The distinct `errorReason` strings produced by `parseBancolombiaSMS`,
as an enumeration; `errorReasonText` gives the literal source strings. -/
inductive ErrorReason where
  | patternMismatch
  | invalidAmount
  | emptySenderName
  | invalidAccount
  | invalidDate
  | invalidTimeFormat
  | invalidTimeValues
deriving DecidableEq

def errorReasonText : ErrorReason → String
  | .patternMismatch => "SMS message does not match Bancolombia transfer pattern"
  | .invalidAmount => "Invalid amount format in SMS"
  | .emptySenderName => "Empty or invalid sender name"
  | .invalidAccount => "Invalid account number format"
  | .invalidDate => "Invalid date format in SMS"
  | .invalidTimeFormat => "Invalid time format in SMS"
  | .invalidTimeValues => "Invalid time values in SMS"

/-- The input-determined part of a parse: either a failure reason, or the
successful fields.  (The failure returns of the source additionally fill the
`date` field with `new Date()` — the current clock — which is added back in
`parseBancolombiaSMS` below.) -/
inductive ParseOutcome where
  | failure (reason : ErrorReason)
  | ok (amount : Nat) (senderName : String) (account : String)
       (date : JsDate) (time : String)
deriving DecidableEq

/-- The branch structure of `parseBancolombiaSMS`, in source order:
pattern match, amount, sender name, account shape, date range, date
re-derivation, time shape, time values.  The body never throws (none of
`parseInt`, `trim`, `new Date` throw), so the source's `catch` branch is
unreachable and has no counterpart here.  The `isNaN(parsedDate.getTime())`
check is always false for the range-checked components and is omitted. -/
def parseOutcome (message : String) : ParseOutcome :=
  match findMatch message.data with
  | none => .failure .patternMismatch
  | some caps =>
    match jsParseIntOpt (stripCommas caps.amountStr) with
    | none => .failure .invalidAmount
    | some amount =>
      if amount ≤ 0 then .failure .invalidAmount
      else if jsTrim caps.senderName = "" then .failure .emptySenderName
      else if !(isFourDigits caps.account) then .failure .invalidAccount
      else
        match dateComponents caps.dateStr with
        | none => .failure .invalidDate
        | some (day, month, year) =>
          if day < 1 ∨ 31 < day ∨ month < 1 ∨ 12 < month ∨ year < 1900 then
            .failure .invalidDate
          else if mkJsDate year month day ≠ ⟨year, month, day⟩ then
            .failure .invalidDate
          else if !(isTimeShape caps.timeStr) then .failure .invalidTimeFormat
          else
            match timeComponents caps.timeStr with
            | some (hours, minutes) =>
              if 23 < hours ∨ 59 < minutes then .failure .invalidTimeValues
              else .ok amount (jsTrim caps.senderName) ("**" ++ caps.account)
                     (mkJsDate year month day) caps.timeStr
            | none =>
              -- JS: NaN time components pass the `< 0` / `> 23` checks
              -- vacuously; unreachable after the shape test.
              .ok amount (jsTrim caps.senderName) ("**" ++ caps.account)
                (mkJsDate year month day) caps.timeStr

/-- The `ParsedMessage` record of the source. -/
structure ParsedMessage where
  amount : Nat
  senderName : String
  account : String
  date : JsDate
  time : String
  success : Bool
  errorReason : Option ErrorReason
deriving DecidableEq

/-- `parseBancolombiaSMS(message)`.  The failure returns of the source set
`date: new Date()`; that impure read of the current clock is made explicit as
the `now` argument. -/
def parseBancolombiaSMS (now : JsDate) (message : String) : ParsedMessage :=
  match parseOutcome message with
  | .failure r => ⟨0, "", "", now, "", false, some r⟩
  | .ok amount senderName account date time =>
    ⟨amount, senderName, account, date, time, true, none⟩

/-- The spec's fixed five-element failure taxonomy (§7). -/
inductive FailureTaxonomy where
  | pattern_mismatch
  | invalid_amount
  | empty_sender_name
  | invalid_date
  | invalid_time
deriving DecidableEq

/-- How the parser's concrete failure reasons map onto the spec taxonomy:
the two time-error strings are both `invalid_time`; the defensive account
shape check has no taxonomy element. -/
def taxonomyOf : ErrorReason → Option FailureTaxonomy
  | .patternMismatch => some .pattern_mismatch
  | .invalidAmount => some .invalid_amount
  | .emptySenderName => some .empty_sender_name
  | .invalidAccount => none
  | .invalidDate => some .invalid_date
  | .invalidTimeFormat => some .invalid_time
  | .invalidTimeValues => some .invalid_time

/-! ## The payload validator

`validateWebhookPayload` receives the arbitrary value produced by
`request.json()`, so the input is modelled as a JSON-representable JS value. -/

inductive JSValue where
  | nullV
  | undefinedV
  | boolV (b : Bool)
  | numV (n : Int)
  | strV (s : String)
  | arrV (elems : List JSValue)
  | objV (fields : List (String × JSValue))

/-- JS `typeof`. -/
def jsTypeof : JSValue → String
  | .nullV => "object"
  | .undefinedV => "undefined"
  | .boolV _ => "boolean"
  | .numV _ => "number"
  | .strV _ => "string"
  | .arrV _ => "object"
  | .objV _ => "object"

/-- JS truthiness (the `!payload` test). -/
def jsTruthy : JSValue → Bool
  | .nullV => false
  | .undefinedV => false
  | .boolV b => b
  | .numV n => !(n == 0)
  | .strV s => !s.isEmpty
  | .arrV _ => true
  | .objV _ => true

/-- JS property access `v[key]` for the values reaching it here: a named
property of an object, `undefined` for a missing key or a non-object.  (The
field list of `objV` stands for a JS object, whose keys are unique.) -/
def jsGet (v : JSValue) (key : String) : JSValue :=
  match v with
  | .objV fields =>
    match fields.lookup key with
    | some w => w
    | none => .undefinedV
  | _ => .undefinedV

/-- `x.length > 0` for the values reaching it here (the `&&` chain evaluates
it only after `typeof x === 'string'` has succeeded). -/
def strLengthPos : JSValue → Bool
  | .strV s => !s.isEmpty
  | _ => false

/-- `validateWebhookPayload(payload)`. -/
def validateWebhookPayload (payload : JSValue) : Bool :=
  if !(jsTruthy payload) || !(jsTypeof payload == "object") then false
  else
    (jsTypeof (jsGet payload "message") == "string") &&
    (jsTypeof (jsGet payload "timestamp") == "string") &&
    (jsTypeof (jsGet payload "phone") == "string") &&
    (jsTypeof (jsGet payload "webhookId") == "string") &&
    strLengthPos (jsGet payload "message") &&
    strLengthPos (jsGet payload "webhookId")

/-! ## The idempotency cache (`MemoryCache`) -/

structure CacheEntry (V : Type) where
  data : V
  timestamp : Int
  ttl : Int

/-- The cache's `Map<string, CacheEntry>` as a partial map. -/
def MemoryCache (V : Type) : Type := String → Option (CacheEntry V)

def MemoryCache.emptyCache (V : Type) : MemoryCache V := fun _ => none

/-- `set(key, data, ttlMs)` at clock time `now` (`Date.now()` at the call).
In the source `ttlMs` defaults to 300000 (5 minutes) when omitted. -/
def MemoryCache.set {V : Type} (c : MemoryCache V) (key : String) (data : V)
    (ttlMs : Int) (now : Int) : MemoryCache V :=
  fun k => if k = key then some ⟨data, now, ttlMs⟩ else c k

def MemoryCache.erase {V : Type} (c : MemoryCache V) (key : String) : MemoryCache V :=
  fun k => if k = key then none else c k

/-- `get(key)` at clock time `now`: returns the value (or `null` as `none`)
together with the possibly-updated map — the lazy-expiry read deletes an entry
that has outlived its TTL. -/
def MemoryCache.get {V : Type} (c : MemoryCache V) (key : String) (now : Int) :
    Option V × MemoryCache V :=
  match c key with
  | none => (none, c)
  | some entry =>
    if now - entry.timestamp > entry.ttl then (none, c.erase key)
    else (some entry.data, c)

/-! ## Aggregate metrics (`TransactionDatabase.getTransactionMetrics`)

The database query returns the `amount` strings of the status-`processed`
transactions inside the date-range filter; `amounts` below is that result set
after `parseFloat`, with JS numbers modelled as rationals.  `lastUpdated`
(`new Date()`) is the explicit `now` argument. -/

structure TransactionMetrics where
  totalAmount : ℚ
  transactionCount : Nat
  averageAmount : ℚ
  lastUpdated : JsDate

def getTransactionMetrics (amounts : List ℚ) (now : JsDate) : TransactionMetrics :=
  let totalAmount := amounts.foldl (fun sum t => sum + t) (0 : ℚ)
  let transactionCount := amounts.length
  let averageAmount :=
    if transactionCount > 0 then totalAmount / (transactionCount : ℚ) else 0
  ⟨totalAmount, transactionCount, averageAmount, now⟩

/-! ## The webhook POST handler (`app/api/webhook/sms/route.ts`)

The handler's two database calls are modelled by oracles carried in the
input: the result of the duplicate lookup
(`… .eq('webhook_id', …).single()`) and the result of the transaction
insert.  The handler returns its HTTP response together with the trace of
pipeline steps it executed (the parse-error insert is best-effort: its own
failure is only logged, so its result needs no oracle). -/

/-- Outcome of the duplicate lookup: a row `{id, webhook_id}` with no error,
or an error object whose `code` is `'PGRST116'` exactly when no row matched. -/
inductive DupLookupResult where
  | found (id : String)
  | errorWith (code : String) (message : String)
deriving DecidableEq

/-- Outcome of the transaction insert (`error.code = '23505'` is Postgres's
unique-constraint violation). -/
inductive InsertResult where
  | ok (id : String)
  | fail (code : String) (message : String)
deriving DecidableEq

/-- The pipeline steps whose execution the claims talk about. -/
inductive Effect where
  | dupLookup
  | parseSms
  | insertTransaction
  | insertParseError
deriving DecidableEq

/-- The JSON body (plus HTTP status) of a `WebhookResponse`. -/
structure WebhookResponse where
  httpStatus : Nat
  status : String
  transactionId : Option String
  webhookId : Option String
  error : Option String
deriving DecidableEq

structure PostInput where
  /-- all three required environment variables are present -/
  envOk : Bool
  webhookSecret : String
  authHeader : Option String
  contentType : Option String
  /-- `none` models `request.json()` rejecting (unparseable body) -/
  body : Option JSValue
  dupLookup : DupLookupResult
  insertTx : InsertResult
  now : JsDate

/-- `authHeader.startsWith('Bearer ')` -/
def jsStartsWith (s p : String) : Bool :=
  p.data.isPrefixOf s.data

/-- Substring occurrence on character lists. -/
def hasSub (pat : List Char) : List Char → Bool
  | [] => pat.isEmpty
  | c :: cs => pat.isPrefixOf (c :: cs) || hasSub pat cs

/-- `contentType.includes('application/json')` -/
def jsIncludes (s sub : String) : Bool :=
  hasSub sub.data s.data

/-- `authHeader.replace('Bearer ', '')`: removing the first occurrence from a
string known to start with `'Bearer '` is dropping its 7 characters. -/
def jsDropChars (s : String) (n : Nat) : String :=
  String.mk (s.data.drop n)

/-- Read a field already validated to be a string. -/
def jsGetStr (v : JSValue) (key : String) : String :=
  match jsGet v key with
  | .strV s => s
  | _ => ""

/-- `${parsedMessage.errorReason}` in the parse-failure response. -/
def errorReasonString : Option ErrorReason → String
  | some r => errorReasonText r
  | none => "undefined"

/-- The `POST` handler.  Logging and elapsed-time measurement have no
observable effect on the response and are not modelled. -/
def POST (i : PostInput) : WebhookResponse × List Effect :=
  if !i.envOk then
    (⟨500, "error", none, none, some "Server configuration error"⟩, [])
  else
    match i.authHeader with
    | none => (⟨401, "error", none, none, some "Missing or invalid authorization header"⟩, [])
    | some authHeader =>
      if !(jsStartsWith authHeader "Bearer ") then
        (⟨401, "error", none, none, some "Missing or invalid authorization header"⟩, [])
      else if !(jsDropChars authHeader 7 == i.webhookSecret) then
        (⟨401, "error", none, none, some "Invalid webhook token"⟩, [])
      else
        match i.contentType with
        | none => (⟨400, "error", none, none, some "Content-Type must be application/json"⟩, [])
        | some ct =>
          if !(jsIncludes ct "application/json") then
            (⟨400, "error", none, none, some "Content-Type must be application/json"⟩, [])
          else
            match i.body with
            | none => (⟨400, "error", none, none, some "Invalid JSON payload"⟩, [])
            | some body =>
              if !(validateWebhookPayload body) then
                (⟨400, "error", none, none, some "Invalid webhook payload format"⟩, [])
              else
                let wid := jsGetStr body "webhookId"
                match i.dupLookup with
                | .found id =>
                  (⟨200, "duplicate", some id, some wid, none⟩, [.dupLookup])
                | .errorWith code _ =>
                  if !(code == "PGRST116") then
                    (⟨500, "error", none, some wid, some "Database connection error"⟩, [.dupLookup])
                  else
                    let parsed := parseBancolombiaSMS i.now (jsGetStr body "message")
                    if !parsed.success then
                      (⟨400, "error", none, some wid,
                          some ("Parse failed: " ++ errorReasonString parsed.errorReason)⟩,
                        [.dupLookup, .parseSms, .insertParseError])
                    else
                      match i.insertTx with
                      | .ok tid =>
                        (⟨200, "processed", some tid, some wid, none⟩,
                          [.dupLookup, .parseSms, .insertTransaction])
                      | .fail _ _ =>
                        -- any insert error — including a '23505' uniqueness
                        -- violation — takes this branch: the code never
                        -- inspects insertError.code
                        (⟨500, "error", none, some wid, some "Failed to store transaction"⟩,
                          [.dupLookup, .parseSms, .insertTransaction, .insertParseError])

/-! ## Concrete request values used by the witnesses below -/

/-- A concrete replayed request: valid auth and envelope, lookup finds the
stored transaction. -/
def dupBody : JSValue :=
  JSValue.objV [("message", JSValue.strV "hello"), ("timestamp", JSValue.strV ""),
    ("phone", JSValue.strV ""), ("webhookId", JSValue.strV "wh_1")]

def dupInput : PostInput :=
  ⟨true, "s3cret", some "Bearer s3cret", some "application/json", some dupBody,
    DupLookupResult.found "tx_9", InsertResult.ok "tx_new", ⟨2025, 1, 1⟩⟩

/-- A request that reaches the persist step and hits a `23505`
unique-constraint violation on `webhook_id`: everything upstream is valid,
the duplicate lookup found nothing (`PGRST116`), the message parses, and the
insert fails with Postgres's uniqueness-violation code — the race the spec
describes. -/
def raceInput : PostInput :=
  ⟨true, "s3cret", some "Bearer s3cret", some "application/json",
    some (JSValue.objV
      [("message", JSValue.strV "Bancolombia: Recibiste una transferencia por $190,000 de MARIA CUBAQUE en tu cuenta **7251, el 04/09/2025 a las 08:06"),
       ("timestamp", JSValue.strV "2025-09-04T08:06:00Z"),
       ("phone", JSValue.strV "+573001112233"),
       ("webhookId", JSValue.strV "wh_123")]),
    DupLookupResult.errorWith "PGRST116" "no rows returned",
    InsertResult.fail "23505" "duplicate key value violates unique constraint transactions_webhook_id_key",
    ⟨2025, 9, 4⟩⟩

/-- A concrete request whose insert fails with a non-uniqueness storage
error. -/
def insBody : JSValue :=
  JSValue.objV
    [("message", JSValue.strV "Bancolombia: Recibiste una transferencia por $190,000 de MARIA CUBAQUE en tu cuenta **7251, el 04/09/2025 a las 08:06"),
     ("timestamp", JSValue.strV ""), ("phone", JSValue.strV ""),
     ("webhookId", JSValue.strV "wh_77")]

def insInput : PostInput :=
  ⟨true, "s3cret", some "Bearer s3cret", some "application/json", some insBody,
    DupLookupResult.errorWith "PGRST116" "no rows returned",
    InsertResult.fail "08006" "connection failure", ⟨2025, 9, 4⟩⟩

/-! ## Matcher invariants -/

theorem takeDigits_spec :
    ∀ (n : Nat) (l ds r : List Char), takeDigits n l = some (ds, r) →
      ds.length = n ∧ ds.all Char.isDigit = true := by
  intro n
  induction n with
  | zero =>
    intro l ds r h
    simp only [takeDigits, Option.some.injEq, Prod.mk.injEq] at h
    simp [← h.1]
  | succ k ih =>
    intro l ds r h
    cases l with
    | nil => simp [takeDigits] at h
    | cons c cs =>
      unfold takeDigits at h
      split at h
      · split at h
        · rename_i ds' r' heq
          simp only [Option.some.injEq, Prod.mk.injEq] at h
          obtain ⟨hds, -⟩ := h
          obtain ⟨hlen, hall⟩ := ih cs ds' r' heq
          subst hds
          simp only [List.length_cons, hlen, List.all_cons, hall, Bool.and_true]
          exact ⟨trivial, by assumption⟩
        · exact absurd h (by simp)
      · exact absurd h (by simp)

theorem isFourDigits_mk (ds : List Char) (hlen : ds.length = 4)
    (hall : ds.all Char.isDigit = true) : isFourDigits (String.mk ds) = true := by
  match ds, hlen with
  | [a, b, c, d], _ =>
    simp only [List.all_cons, List.all_nil, Bool.and_true, Bool.and_eq_true] at hall
    simp only [isFourDigits, Bool.and_eq_true]
    tauto

theorem matchTail_account (l : List Char) (adt : String × String × String)
    (h : matchTail l = some adt) : isFourDigits adt.1 = true := by
  unfold matchTail at h
  split at h
  · exact absurd h (by simp)
  · rename_i acc r1 htd
    split at h
    · exact absurd h (by simp)
    · split at h
      · exact absurd h (by simp)
      · split at h
        · exact absurd h (by simp)
        · split at h
          · exact absurd h (by simp)
          · simp only [Option.some.injEq] at h
            obtain ⟨hlen, hall⟩ := takeDigits_spec 4 l acc r1 htd
            rw [← h]
            exact isFourDigits_mk acc hlen hall

theorem matchName_account :
    ∀ (l nm : List Char) (adt : String × String × String),
      matchName l = some (nm, adt) → isFourDigits adt.1 = true := by
  intro l
  induction l with
  | nil => intro nm adt h; simp [matchName] at h
  | cons c cs ih =>
    intro nm adt h
    unfold matchName at h
    split at h
    · split at h
      · rename_i nm' adt' heq
        simp only [Option.some.injEq, Prod.mk.injEq] at h
        exact h.2 ▸ ih nm' adt' heq
      · split at h
        · exact absurd h (by simp)
        · split at h
          · exact absurd h (by simp)
          · rename_i adt' htl
            simp only [Option.some.injEq, Prod.mk.injEq] at h
            exact h.2 ▸ matchTail_account _ adt' htl
    · exact absurd h (by simp)

theorem matchAt_account (l : List Char) (caps : Captures)
    (h : matchAt l = some caps) : isFourDigits caps.account = true := by
  unfold matchAt at h
  split at h
  · exact absurd h (by simp)
  · split at h
    · exact absurd h (by simp)
    · split at h
      split at h
      · exact absurd h (by simp)
      · split at h
        · exact absurd h (by simp)
        · split at h
          · exact absurd h (by simp)
          · rename_i nm adt hmn
            simp only [Option.some.injEq] at h
            rw [← h]
            exact matchName_account _ nm adt hmn

theorem findMatch_account :
    ∀ (l : List Char) (caps : Captures),
      findMatch l = some caps → isFourDigits caps.account = true := by
  intro l
  induction l with
  | nil => intro caps h; simp [findMatch] at h
  | cons c cs ih =>
    intro caps h
    unfold findMatch at h
    split at h
    · rename_i caps' hma
      simp only [Option.some.injEq] at h
      exact h ▸ matchAt_account _ caps' hma
    · exact ih caps h

/-- The defensive account-shape branch of the parser is unreachable: the
pattern itself only captures four-digit accounts. -/
theorem parseOutcome_failure_not_account (msg : String) (r : ErrorReason)
    (h : parseOutcome msg = .failure r) : r ≠ ErrorReason.invalidAccount := by
  unfold parseOutcome at h
  split at h
  · simp only [ParseOutcome.failure.injEq] at h
    simp [← h]
  · rename_i caps hfm
    have hacc := findMatch_account _ caps hfm
    split at h
    · simp only [ParseOutcome.failure.injEq] at h
      simp [← h]
    · split at h
      · simp only [ParseOutcome.failure.injEq] at h
        simp [← h]
      · split at h
        · simp only [ParseOutcome.failure.injEq] at h
          simp [← h]
        · split at h
          · rename_i hnacc
            rw [hacc] at hnacc
            simp at hnacc
          · split at h
            · simp only [ParseOutcome.failure.injEq] at h
              simp [← h]
            · split at h
              · simp only [ParseOutcome.failure.injEq] at h
                simp [← h]
              · split at h
                · simp only [ParseOutcome.failure.injEq] at h
                  simp [← h]
                · split at h
                  · simp only [ParseOutcome.failure.injEq] at h
                    simp [← h]
                  · split at h
                    · split at h
                      · simp only [ParseOutcome.failure.injEq] at h
                        simp [← h]
                      · exact absurd h (by simp)
                    · exact absurd h (by simp)

/-! ## Claim C3 -/

/-- Claim C3: `parseBancolombiaSMS` is total (it is a Lean function, so it
returns on every input string), and whenever it returns `success = false` it
carries an `errorReason` that falls inside the spec's fixed five-element
failure taxonomy — in particular the defensive account-shape reason and the
`catch` branch can never surface. -/
theorem parse_failure_reason_in_taxonomy (now : JsDate) (msg : String)
    (h : (parseBancolombiaSMS now msg).success = false) :
    ∃ r t, (parseBancolombiaSMS now msg).errorReason = some r ∧ taxonomyOf r = some t := by
  unfold parseBancolombiaSMS at h ⊢
  cases ho : parseOutcome msg with
  | ok a s acc d t => rw [ho] at h; exact Bool.noConfusion h
  | failure r =>
    have hr := parseOutcome_failure_not_account msg r ho
    cases r
    case invalidAccount => exact absurd rfl hr
    all_goals exact ⟨_, _, rfl, rfl⟩

theorem parse_failure_reason_in_taxonomy_witness :
    (parseBancolombiaSMS ⟨2025, 1, 1⟩ "hello").success = false ∧
      ∃ r t, (parseBancolombiaSMS ⟨2025, 1, 1⟩ "hello").errorReason = some r ∧
        taxonomyOf r = some t :=
  ⟨by decide, parse_failure_reason_in_taxonomy ⟨2025, 1, 1⟩ "hello" (by decide)⟩

/-! ## Claim C9 -/

/-- Claim C9 as stated is false: the failure paths of the source set the
`date` field to `new Date()` — the current clock — so two invocations of the
parser on the same (non-matching) string at different clock readings return
different `ParsedMessage` values. -/
theorem parse_not_pure_counterexample :
    parseBancolombiaSMS ⟨2025, 1, 1⟩ "hello" ≠ parseBancolombiaSMS ⟨2025, 1, 2⟩ "hello" := by
  decide

/-- Claim C9, amended: the parser is deterministic in its input in every
field except the failure-path `date`: two invocations on the same string
agree on `amount`, `senderName`, `account`, `time`, `success`, `errorReason`,
and on the success path the whole result (including `date`) is equal — only
the `date` of a failure result depends on the clock. -/
theorem parse_deterministic_except_failure_date (now1 now2 : JsDate) (msg : String) :
    (parseBancolombiaSMS now1 msg).amount = (parseBancolombiaSMS now2 msg).amount ∧
    (parseBancolombiaSMS now1 msg).senderName = (parseBancolombiaSMS now2 msg).senderName ∧
    (parseBancolombiaSMS now1 msg).account = (parseBancolombiaSMS now2 msg).account ∧
    (parseBancolombiaSMS now1 msg).time = (parseBancolombiaSMS now2 msg).time ∧
    (parseBancolombiaSMS now1 msg).success = (parseBancolombiaSMS now2 msg).success ∧
    (parseBancolombiaSMS now1 msg).errorReason = (parseBancolombiaSMS now2 msg).errorReason ∧
    ((parseBancolombiaSMS now1 msg).success = true →
      parseBancolombiaSMS now1 msg = parseBancolombiaSMS now2 msg) := by
  cases ho : parseOutcome msg <;> simp [parseBancolombiaSMS, ho]

theorem parse_deterministic_except_failure_date_witness :
    (parseBancolombiaSMS ⟨2025, 1, 1⟩ "Bancolombia: Recibiste una transferencia por $190,000 de MARIA CUBAQUE en tu cuenta **7251, el 04/09/2025 a las 08:06").success = true ∧
    parseBancolombiaSMS ⟨2025, 1, 1⟩ "Bancolombia: Recibiste una transferencia por $190,000 de MARIA CUBAQUE en tu cuenta **7251, el 04/09/2025 a las 08:06" =
      parseBancolombiaSMS ⟨2025, 1, 2⟩ "Bancolombia: Recibiste una transferencia por $190,000 de MARIA CUBAQUE en tu cuenta **7251, el 04/09/2025 a las 08:06" :=
  ⟨by decide,
    (parse_deterministic_except_failure_date ⟨2025, 1, 1⟩ ⟨2025, 1, 2⟩
      "Bancolombia: Recibiste una transferencia por $190,000 de MARIA CUBAQUE en tu cuenta **7251, el 04/09/2025 a las 08:06").2.2.2.2.2.2
      (by decide)⟩

/-! ## Claim C10 -/

/-- Claim C10: in `getTransactionMetrics`, `averageAmount` is
`totalAmount / transactionCount` whenever the count is positive, and is the
literal `0` (the guarded branch — no division) when no transactions matched
the filter. -/
theorem metrics_average_guarded (amounts : List ℚ) (now : JsDate) :
    (0 < (getTransactionMetrics amounts now).transactionCount →
      (getTransactionMetrics amounts now).averageAmount =
        (getTransactionMetrics amounts now).totalAmount /
          ((getTransactionMetrics amounts now).transactionCount : ℚ)) ∧
    (amounts = [] → (getTransactionMetrics amounts now).averageAmount = 0) := by
  constructor
  · intro hpos
    simp only [getTransactionMetrics] at hpos ⊢
    rw [if_pos hpos]
  · rintro rfl
    simp [getTransactionMetrics]

theorem metrics_average_guarded_witness :
    (0 < (getTransactionMetrics [100, 200] ⟨2025, 1, 1⟩).transactionCount ∧
      (getTransactionMetrics [100, 200] ⟨2025, 1, 1⟩).averageAmount =
        (getTransactionMetrics [100, 200] ⟨2025, 1, 1⟩).totalAmount /
          ((getTransactionMetrics [100, 200] ⟨2025, 1, 1⟩).transactionCount : ℚ)) ∧
    (getTransactionMetrics [] ⟨2025, 1, 1⟩).averageAmount = 0 :=
  ⟨⟨by decide, (metrics_average_guarded [100, 200] ⟨2025, 1, 1⟩).1 (by decide)⟩,
    (metrics_average_guarded [] ⟨2025, 1, 1⟩).2 rfl⟩

/-! ## Claim C8 -/

/-- Claim C8: after `set(key, v, ttl)` at time `t0`, a `get(key)` strictly
before the TTL has elapsed returns `v`, and a `get(key)` strictly after the
TTL has elapsed returns `null` and removes the entry (lazy expiry on read). -/
theorem cache_get_respects_ttl {V : Type} (c : MemoryCache V) (key : String) (v : V)
    (ttl t0 t1 : Int) :
    (t1 - t0 < ttl → ((MemoryCache.set c key v ttl t0).get key t1).1 = some v) ∧
    (t1 - t0 > ttl →
      ((MemoryCache.set c key v ttl t0).get key t1).1 = none ∧
      ((MemoryCache.set c key v ttl t0).get key t1).2 key = none) := by
  constructor
  · intro hlt
    have hne : ¬(t1 - t0 > ttl) := by omega
    simp [MemoryCache.get, MemoryCache.set, hne]
  · intro hgt
    simp [MemoryCache.get, MemoryCache.set, MemoryCache.erase, hgt]

theorem cache_get_respects_ttl_witness :
    ((0 : Int) - 0 < 10 ∧
      ((MemoryCache.set (MemoryCache.emptyCache Nat) "k" 7 10 0).get "k" 0).1 = some 7) ∧
    ((20 : Int) - 0 > 10 ∧
      ((MemoryCache.set (MemoryCache.emptyCache Nat) "k" 7 10 0).get "k" 20).1 = none ∧
      ((MemoryCache.set (MemoryCache.emptyCache Nat) "k" 7 10 0).get "k" 20).2 "k" = none) :=
  ⟨⟨by decide, (cache_get_respects_ttl (MemoryCache.emptyCache Nat) "k" 7 10 0 0).1 (by decide)⟩,
    ⟨by decide, (cache_get_respects_ttl (MemoryCache.emptyCache Nat) "k" 7 10 0 20).2 (by decide)⟩⟩

/-! ## Claim C6 -/

theorem jsTypeof_string_iff (w : JSValue) :
    (jsTypeof w == "string") = true ↔ ∃ s, w = JSValue.strV s := by
  cases w <;> simp [jsTypeof]

theorem strLengthPos_strV (s : String) :
    strLengthPos (JSValue.strV s) = true ↔ s ≠ "" := by
  simp only [strLengthPos, Bool.not_eq_true']
  rw [Bool.eq_false_iff]
  exact not_congr (String.isEmpty_iff s)

/-- Claim C6: `validateWebhookPayload` accepts exactly the non-null objects
whose four keys `message`, `timestamp`, `phone`, `webhookId` are present with
string values, with `message` and `webhookId` additionally non-empty —
`timestamp` and `phone` may be empty strings. -/
theorem validateWebhookPayload_iff (v : JSValue) :
    validateWebhookPayload v = true ↔
      ∃ fields m ts ph wid,
        v = JSValue.objV fields ∧
        jsGet v "message" = JSValue.strV m ∧
        jsGet v "timestamp" = JSValue.strV ts ∧
        jsGet v "phone" = JSValue.strV ph ∧
        jsGet v "webhookId" = JSValue.strV wid ∧
        m ≠ "" ∧ wid ≠ "" := by
  constructor
  · intro h
    unfold validateWebhookPayload at h
    split at h
    · exact Bool.noConfusion h
    · rename_i hcond
      simp only [Bool.and_eq_true] at h
      obtain ⟨⟨⟨⟨⟨hm, hts⟩, hph⟩, hwid⟩, hlm⟩, hlw⟩ := h
      obtain ⟨m, hm'⟩ := (jsTypeof_string_iff _).1 hm
      obtain ⟨ts, hts'⟩ := (jsTypeof_string_iff _).1 hts
      obtain ⟨ph, hph'⟩ := (jsTypeof_string_iff _).1 hph
      obtain ⟨wid, hwid'⟩ := (jsTypeof_string_iff _).1 hwid
      cases v with
      | objV fields =>
        refine ⟨fields, m, ts, ph, wid, rfl, hm', hts', hph', hwid', ?_, ?_⟩
        · exact (strLengthPos_strV m).1 (hm' ▸ hlm)
        · exact (strLengthPos_strV wid).1 (hwid' ▸ hlw)
      | arrV elems => simp [jsGet] at hm'
      | nullV => simp [jsTruthy] at hcond
      | undefinedV => simp [jsTruthy] at hcond
      | boolV b => simp [jsTypeof] at hcond
      | numV n => simp [jsTypeof] at hcond
      | strV s => simp [jsTypeof] at hcond
  · rintro ⟨fields, m, ts, ph, wid, rfl, hm, hts, hph, hwid, hmne, hwidne⟩
    unfold validateWebhookPayload
    rw [if_neg (by simp [jsTruthy, jsTypeof])]
    rw [hm, hts, hph, hwid]
    simp only [Bool.and_eq_true]
    refine ⟨⟨⟨⟨⟨?_, ?_⟩, ?_⟩, ?_⟩, ?_⟩, ?_⟩
    · simp [jsTypeof]
    · simp [jsTypeof]
    · simp [jsTypeof]
    · simp [jsTypeof]
    · exact (strLengthPos_strV m).2 hmne
    · exact (strLengthPos_strV wid).2 hwidne

/-! ## Claim C2 -/

/-- Claim C2: for a request that passes authentication, content-type and
envelope validation and whose duplicate lookup finds a stored transaction for
the delivery id, the handler responds 200 with status `"duplicate"` echoing
the stored transaction's id, and its trace shows it neither parsed the
message nor performed any insert — a replay terminates successfully without a
second record. -/
theorem duplicate_lookup_short_circuits (i : PostInput) (ah ct : String) (b : JSValue)
    (id : String)
    (henv : i.envOk = true)
    (hah : i.authHeader = some ah)
    (hstart : jsStartsWith ah "Bearer " = true)
    (hsecret : jsDropChars ah 7 = i.webhookSecret)
    (hct : i.contentType = some ct)
    (hjson : jsIncludes ct "application/json" = true)
    (hbody : i.body = some b)
    (hval : validateWebhookPayload b = true)
    (hdup : i.dupLookup = DupLookupResult.found id) :
    POST i = (⟨200, "duplicate", some id, some (jsGetStr b "webhookId"), none⟩,
      [Effect.dupLookup]) := by
  simp [POST, henv, hah, hstart, hsecret, hct, hjson, hbody, hval, hdup]

theorem duplicate_lookup_short_circuits_witness :
    POST dupInput =
      (⟨200, "duplicate", some "tx_9", some "wh_1", none⟩, [Effect.dupLookup]) := by
  have h := duplicate_lookup_short_circuits dupInput "Bearer s3cret" "application/json"
    dupBody "tx_9" rfl rfl (by decide) (by decide) rfl (by decide) rfl (by decide) rfl
  rw [h]
  decide

/-! ## Claim C1 -/

/-- Claim C1 as stated is false on the code: when the transaction insert
fails with the uniqueness-violation code `23505` on the delivery id, the
handler answers with the generic storage error (HTTP 500,
`"Failed to store transaction"`), not with the duplicate outcome — the
insert-error branch never inspects `insertError.code`. -/
theorem insert_unique_violation_counterexample :
    raceInput.insertTx = InsertResult.fail "23505"
        "duplicate key value violates unique constraint transactions_webhook_id_key" ∧
    (POST raceInput).1.httpStatus = 500 ∧
    (POST raceInput).1.status = "error" ∧
    (POST raceInput).1.error = some "Failed to store transaction" ∧
    ¬(POST raceInput).1.status = "duplicate" := by
  decide

/-- Claim C1, amended: if the transaction insert fails — with any error code,
including the `23505` uniqueness violation on the delivery id — the handler
responds with the generic storage-class error (HTTP 500, status `"error"`,
`"Failed to store transaction"`), after logging a parse-error record; the
duplicate outcome is produced only by the pre-insert lookup. -/
theorem insert_error_yields_storage_error (i : PostInput) (ah ct : String) (b : JSValue)
    (em code emsg : String)
    (henv : i.envOk = true)
    (hah : i.authHeader = some ah)
    (hstart : jsStartsWith ah "Bearer " = true)
    (hsecret : jsDropChars ah 7 = i.webhookSecret)
    (hct : i.contentType = some ct)
    (hjson : jsIncludes ct "application/json" = true)
    (hbody : i.body = some b)
    (hval : validateWebhookPayload b = true)
    (hdup : i.dupLookup = DupLookupResult.errorWith "PGRST116" em)
    (hparse : (parseBancolombiaSMS i.now (jsGetStr b "message")).success = true)
    (hins : i.insertTx = InsertResult.fail code emsg) :
    POST i = (⟨500, "error", none, some (jsGetStr b "webhookId"),
        some "Failed to store transaction"⟩,
      [Effect.dupLookup, Effect.parseSms, Effect.insertTransaction,
        Effect.insertParseError]) := by
  simp [POST, henv, hah, hstart, hsecret, hct, hjson, hbody, hval, hdup, hparse, hins]

theorem insert_error_yields_storage_error_witness :
    POST insInput =
      (⟨500, "error", none, some "wh_77", some "Failed to store transaction"⟩,
        [Effect.dupLookup, Effect.parseSms, Effect.insertTransaction,
          Effect.insertParseError]) := by
  have h := insert_error_yields_storage_error insInput "Bearer s3cret" "application/json"
    insBody "no rows returned" "08006" "connection failure"
    rfl rfl (by decide) (by decide) rfl (by decide) rfl (by decide) rfl (by decide) rfl
  rw [h]
  decide

/-! ## Branch lemmas for the field-validation claims -/

/-- Once the structural match has succeeded and the amount check has passed,
the parser's remaining behaviour is the sender/date/time tail (the defensive
account check always passes, by `findMatch_account`). -/
theorem parseOutcome_after_amount (msg : String) (caps : Captures) (amt : Nat)
    (hfm : findMatch msg.data = some caps)
    (hamt : jsParseIntOpt (stripCommas caps.amountStr) = some amt)
    (hpos : 0 < amt) :
    parseOutcome msg =
      (if jsTrim caps.senderName = "" then ParseOutcome.failure .emptySenderName
       else
        match dateComponents caps.dateStr with
        | none => ParseOutcome.failure .invalidDate
        | some (day, month, year) =>
          if day < 1 ∨ 31 < day ∨ month < 1 ∨ 12 < month ∨ year < 1900 then
            ParseOutcome.failure .invalidDate
          else if mkJsDate year month day ≠ ⟨year, month, day⟩ then
            ParseOutcome.failure .invalidDate
          else if !(isTimeShape caps.timeStr) then
            ParseOutcome.failure .invalidTimeFormat
          else
            match timeComponents caps.timeStr with
            | some (hours, minutes) =>
              if 23 < hours ∨ 59 < minutes then ParseOutcome.failure .invalidTimeValues
              else ParseOutcome.ok amt (jsTrim caps.senderName) ("**" ++ caps.account)
                     (mkJsDate year month day) caps.timeStr
            | none =>
              ParseOutcome.ok amt (jsTrim caps.senderName) ("**" ++ caps.account)
                (mkJsDate year month day) caps.timeStr) := by
  have hacc := findMatch_account msg.data caps hfm
  have h1 : ¬ amt ≤ 0 := by omega
  simp only [parseOutcome, hfm, hamt, if_neg h1, hacc, Bool.not_true, Bool.false_eq_true,
    if_false]

/-- Once the amount check has passed, a later failure can only carry one of
the sender/date/time reasons, and a success carries exactly the amount, the
trimmed sender name, the masked account and the raw time capture. -/
theorem parseOutcome_tail_cases (msg : String) (caps : Captures) (amt : Nat)
    (hfm : findMatch msg.data = some caps)
    (hamt : jsParseIntOpt (stripCommas caps.amountStr) = some amt)
    (hpos : 0 < amt) :
    (∀ r, parseOutcome msg = .failure r →
      r = .emptySenderName ∨ r = .invalidDate ∨ r = .invalidTimeFormat ∨
        r = .invalidTimeValues) ∧
    (∀ a s acc d t, parseOutcome msg = .ok a s acc d t →
      a = amt ∧ s = jsTrim caps.senderName ∧ acc = "**" ++ caps.account ∧
        t = caps.timeStr) := by
  rw [parseOutcome_after_amount msg caps amt hfm hamt hpos]
  constructor
  · intro r h
    split at h
    · injection h with h2; subst h2; simp
    · split at h
      · injection h with h2; subst h2; simp
      · split at h
        · injection h with h2; subst h2; simp
        · split at h
          · injection h with h2; subst h2; simp
          · split at h
            · injection h with h2; subst h2; simp
            · split at h
              · split at h
                · injection h with h2; subst h2; simp
                · exact ParseOutcome.noConfusion h
              · exact ParseOutcome.noConfusion h
  · intro a s acc d t h
    split at h
    · exact ParseOutcome.noConfusion h
    · split at h
      · exact ParseOutcome.noConfusion h
      · split at h
        · exact ParseOutcome.noConfusion h
        · split at h
          · exact ParseOutcome.noConfusion h
          · split at h
            · exact ParseOutcome.noConfusion h
            · split at h
              · split at h
                · exact ParseOutcome.noConfusion h
                · injection h with h1 h2 h3 h4 h5
                  exact ⟨h1.symm, h2.symm, h3.symm, h5.symm⟩
              · injection h with h1 h2 h3 h4 h5
                exact ⟨h1.symm, h2.symm, h3.symm, h5.symm⟩

/-- `jsTrim` only removes characters at the two ends, and everything it
removes is whitespace: the original string is an all-space prefix, the
trimmed string verbatim (internal whitespace untouched), and an all-space
suffix. -/
theorem jsTrim_decomp (s : String) :
    ∃ pre post, s.data = pre ++ (jsTrim s).data ++ post ∧
      pre.all isJsSpace = true ∧ post.all isJsSpace = true := by
  refine ⟨s.data.takeWhile isJsSpace,
    ((s.data.dropWhile isJsSpace).reverse.takeWhile isJsSpace).reverse, ?_, ?_, ?_⟩
  · have h1 : s.data.takeWhile isJsSpace ++ s.data.dropWhile isJsSpace = s.data :=
      List.takeWhile_append_dropWhile isJsSpace s.data
    have h2 : (s.data.dropWhile isJsSpace).reverse.takeWhile isJsSpace ++
        (s.data.dropWhile isJsSpace).reverse.dropWhile isJsSpace =
        (s.data.dropWhile isJsSpace).reverse :=
      List.takeWhile_append_dropWhile isJsSpace (s.data.dropWhile isJsSpace).reverse
    have h3 : s.data.dropWhile isJsSpace =
        ((s.data.dropWhile isJsSpace).reverse.dropWhile isJsSpace).reverse ++
        ((s.data.dropWhile isJsSpace).reverse.takeWhile isJsSpace).reverse := by
      conv_lhs => rw [← List.reverse_reverse (s.data.dropWhile isJsSpace), ← h2]
      rw [List.reverse_append]
    show s.data = _ ++ ((s.data.dropWhile isJsSpace).reverse.dropWhile isJsSpace).reverse ++ _
    rw [List.append_assoc, ← h3, h1]
  · rw [List.all_eq_true]
    intro x hx
    exact List.mem_takeWhile_imp hx
  · rw [List.all_eq_true]
    intro x hx
    exact List.mem_takeWhile_imp (List.mem_reverse.1 hx)

/-! ## Claim C4 -/

/-- Claim C4: for a structurally matching message whose amount and sender
checks pass, the parser rejects with `invalid_date` whenever the day is
outside [1,31], the month outside [1,12], the year below 1900, or the
constructed calendar date re-derives to different components (calendar
overflow) — it never silently normalizes an impossible date. -/
theorem parse_rejects_invalid_date (now : JsDate) (msg : String) (caps : Captures)
    (amt day month year : Nat)
    (hfm : findMatch msg.data = some caps)
    (hamt : jsParseIntOpt (stripCommas caps.amountStr) = some amt)
    (hpos : 0 < amt)
    (hsender : jsTrim caps.senderName ≠ "")
    (hdc : dateComponents caps.dateStr = some (day, month, year))
    (hbad : day < 1 ∨ 31 < day ∨ month < 1 ∨ 12 < month ∨ year < 1900 ∨
      mkJsDate year month day ≠ ⟨year, month, day⟩) :
    (parseBancolombiaSMS now msg).success = false ∧
    (parseBancolombiaSMS now msg).errorReason = some ErrorReason.invalidDate := by
  have hout : parseOutcome msg = .failure .invalidDate := by
    rw [parseOutcome_after_amount msg caps amt hfm hamt hpos]
    simp only [if_neg hsender, hdc]
    by_cases hrange : day < 1 ∨ 31 < day ∨ month < 1 ∨ 12 < month ∨ year < 1900
    · rw [if_pos hrange]
    · rw [if_neg hrange, if_pos (by tauto)]
  unfold parseBancolombiaSMS
  rw [hout]
  exact ⟨rfl, rfl⟩

theorem parse_rejects_invalid_date_witness :
    (parseBancolombiaSMS ⟨2025, 2, 28⟩ "Bancolombia: Recibiste una transferencia por $190,000 de MARIA CUBAQUE en tu cuenta **7251, el 29/02/2025 a las 08:06").success = false ∧
    (parseBancolombiaSMS ⟨2025, 2, 28⟩ "Bancolombia: Recibiste una transferencia por $190,000 de MARIA CUBAQUE en tu cuenta **7251, el 29/02/2025 a las 08:06").errorReason =
      some ErrorReason.invalidDate :=
  parse_rejects_invalid_date ⟨2025, 2, 28⟩
    "Bancolombia: Recibiste una transferencia por $190,000 de MARIA CUBAQUE en tu cuenta **7251, el 29/02/2025 a las 08:06"
    ⟨"190,000", "MARIA CUBAQUE", "7251", "29/02/2025", "08:06"⟩ 190000 29 2 2025
    (by decide) (by decide) (by decide) (by decide) (by decide) (by decide)

/-! ## Claim C5 -/

/-- Claim C5: the parser strips the grouping commas from the amount capture
and requires the result to parse as a strictly positive integer: a
non-numeric or zero amount fails with `invalid_amount`, and a positive
amount `n` never produces `invalid_amount` and yields `amount = n` on
success. -/
theorem parse_amount_strict_positive (now : JsDate) (msg : String) (caps : Captures)
    (hfm : findMatch msg.data = some caps) :
    ((jsParseIntOpt (stripCommas caps.amountStr) = none ∨
        jsParseIntOpt (stripCommas caps.amountStr) = some 0) →
      (parseBancolombiaSMS now msg).success = false ∧
      (parseBancolombiaSMS now msg).errorReason = some ErrorReason.invalidAmount) ∧
    (∀ n, jsParseIntOpt (stripCommas caps.amountStr) = some n → 0 < n →
      (parseBancolombiaSMS now msg).errorReason ≠ some ErrorReason.invalidAmount ∧
      ((parseBancolombiaSMS now msg).success = true →
        (parseBancolombiaSMS now msg).amount = n)) := by
  constructor
  · intro hbad
    have hout : parseOutcome msg = .failure .invalidAmount := by
      rcases hbad with hb | hb
      · simp only [parseOutcome, hfm, hb]
      · simp only [parseOutcome, hfm, hb]
        rw [if_pos (by omega)]
    unfold parseBancolombiaSMS
    rw [hout]
    exact ⟨rfl, rfl⟩
  · intro n hn hpos
    obtain ⟨hfail, hok⟩ := parseOutcome_tail_cases msg caps n hfm hn hpos
    unfold parseBancolombiaSMS
    cases ho : parseOutcome msg with
    | failure r =>
      rcases hfail r ho with rfl | rfl | rfl | rfl <;>
        exact ⟨by simp, fun hs => absurd hs (by simp)⟩
    | ok a s acc d t =>
      exact ⟨by simp, fun _ => (hok a s acc d t ho).1⟩

theorem parse_amount_strict_positive_witness :
    ((parseBancolombiaSMS ⟨2025, 9, 4⟩ "Bancolombia: Recibiste una transferencia por $0 de MARIA CUBAQUE en tu cuenta **7251, el 04/09/2025 a las 08:06").success = false ∧
      (parseBancolombiaSMS ⟨2025, 9, 4⟩ "Bancolombia: Recibiste una transferencia por $0 de MARIA CUBAQUE en tu cuenta **7251, el 04/09/2025 a las 08:06").errorReason =
        some ErrorReason.invalidAmount) ∧
    ((parseBancolombiaSMS ⟨2025, 9, 4⟩ "Bancolombia: Recibiste una transferencia por $1,250,500 de MARIA CUBAQUE en tu cuenta **7251, el 04/09/2025 a las 08:06").success = true ∧
      (parseBancolombiaSMS ⟨2025, 9, 4⟩ "Bancolombia: Recibiste una transferencia por $1,250,500 de MARIA CUBAQUE en tu cuenta **7251, el 04/09/2025 a las 08:06").amount = 1250500) :=
  ⟨(parse_amount_strict_positive ⟨2025, 9, 4⟩
      "Bancolombia: Recibiste una transferencia por $0 de MARIA CUBAQUE en tu cuenta **7251, el 04/09/2025 a las 08:06"
      ⟨"0", "MARIA CUBAQUE", "7251", "04/09/2025", "08:06"⟩ (by decide)).1
      (Or.inr (by decide)),
    ⟨by decide,
      ((parse_amount_strict_positive ⟨2025, 9, 4⟩
        "Bancolombia: Recibiste una transferencia por $1,250,500 de MARIA CUBAQUE en tu cuenta **7251, el 04/09/2025 a las 08:06"
        ⟨"1,250,500", "MARIA CUBAQUE", "7251", "04/09/2025", "08:06"⟩ (by decide)).2
        1250500 (by decide) (by decide)).2 (by decide)⟩⟩

/-! ## Claim C7 -/

/-- Claim C7: for a structurally matching message that passes the amount
check, the parser only trims leading and trailing whitespace from the
captured sender name — internal whitespace is preserved verbatim — and an
all-whitespace capture fails with `empty_sender_name`. -/
theorem parse_sender_trim_only (now : JsDate) (msg : String) (caps : Captures) (amt : Nat)
    (hfm : findMatch msg.data = some caps)
    (hamt : jsParseIntOpt (stripCommas caps.amountStr) = some amt)
    (hpos : 0 < amt) :
    (∃ pre post, caps.senderName.data = pre ++ (jsTrim caps.senderName).data ++ post ∧
      pre.all isJsSpace = true ∧ post.all isJsSpace = true) ∧
    (jsTrim caps.senderName = "" →
      (parseBancolombiaSMS now msg).success = false ∧
      (parseBancolombiaSMS now msg).errorReason = some ErrorReason.emptySenderName) ∧
    ((parseBancolombiaSMS now msg).success = true →
      (parseBancolombiaSMS now msg).senderName = jsTrim caps.senderName) := by
  refine ⟨jsTrim_decomp caps.senderName, ?_, ?_⟩
  · intro hempty
    have hout : parseOutcome msg = .failure .emptySenderName := by
      rw [parseOutcome_after_amount msg caps amt hfm hamt hpos, if_pos hempty]
    unfold parseBancolombiaSMS
    rw [hout]
    exact ⟨rfl, rfl⟩
  · intro hsucc
    obtain ⟨-, hok⟩ := parseOutcome_tail_cases msg caps amt hfm hamt hpos
    unfold parseBancolombiaSMS at hsucc ⊢
    cases ho : parseOutcome msg with
    | failure r => rw [ho] at hsucc; exact Bool.noConfusion hsucc
    | ok a s acc d t => exact (hok a s acc d t ho).2.1

theorem parse_sender_trim_only_witness :
    (parseBancolombiaSMS ⟨2025, 9, 4⟩ "Bancolombia: Recibiste una transferencia por $190,000 de  MARIA  CUBAQUE  en tu cuenta **7251, el 04/09/2025 a las 08:06").success = true ∧
    (parseBancolombiaSMS ⟨2025, 9, 4⟩ "Bancolombia: Recibiste una transferencia por $190,000 de  MARIA  CUBAQUE  en tu cuenta **7251, el 04/09/2025 a las 08:06").senderName =
      jsTrim " MARIA  CUBAQUE " :=
  ⟨by decide,
    (parse_sender_trim_only ⟨2025, 9, 4⟩
      "Bancolombia: Recibiste una transferencia por $190,000 de  MARIA  CUBAQUE  en tu cuenta **7251, el 04/09/2025 a las 08:06"
      ⟨"190,000", " MARIA  CUBAQUE ", "7251", "04/09/2025", "08:06"⟩ 190000
      (by decide) (by decide) (by decide)).2.2 (by decide)⟩

end BankDeposits
